import Mathlib

/-!
Verification of the airpods-tui device-session engine.

Definitions below are shallow embeddings of the Rust sources:
`src/utils.rs` (AES-128 `e` and `ah`), `src/bluetooth/le.rs` (RPA
verification, BLE advertisement decoding, auto-connect arbiter),
`src/devices/airpods.rs` and `src/devices/apple_models.rs` (handshake
sequence), `src/media_controller.rs` (playback takeover, ear detection,
conversational awareness), `src/bluetooth/att.rs` (ATT receive loop)
and `src/ipc.rs` (snapshot folding).

Bytes are modelled as `Nat` values below 256; byte strings as `List Nat`.
-/

namespace AirPodsTui

/-! ## AES-128 (the `aes` crate primitive used by `utils.rs`)

A byte-level implementation of the FIPS-197 AES-128 block cipher, used by
`e` in `src/utils.rs` (encryption) and `decrypt` in `src/bluetooth/le.rs`.
Blocks and keys are 16-byte lists in standard (big-endian, FIPS) byte order.
-/

/-- The AES forward S-box as a 256-entry table. -/
def sboxTable : List Nat :=
  [0x63, 0x7c, 0x77, 0x7b, 0xf2, 0x6b, 0x6f, 0xc5, 0x30, 0x01, 0x67, 0x2b, 0xfe, 0xd7, 0xab, 0x76,
   0xca, 0x82, 0xc9, 0x7d, 0xfa, 0x59, 0x47, 0xf0, 0xad, 0xd4, 0xa2, 0xaf, 0x9c, 0xa4, 0x72, 0xc0,
   0xb7, 0xfd, 0x93, 0x26, 0x36, 0x3f, 0xf7, 0xcc, 0x34, 0xa5, 0xe5, 0xf1, 0x71, 0xd8, 0x31, 0x15,
   0x04, 0xc7, 0x23, 0xc3, 0x18, 0x96, 0x05, 0x9a, 0x07, 0x12, 0x80, 0xe2, 0xeb, 0x27, 0xb2, 0x75,
   0x09, 0x83, 0x2c, 0x1a, 0x1b, 0x6e, 0x5a, 0xa0, 0x52, 0x3b, 0xd6, 0xb3, 0x29, 0xe3, 0x2f, 0x84,
   0x53, 0xd1, 0x00, 0xed, 0x20, 0xfc, 0xb1, 0x5b, 0x6a, 0xcb, 0xbe, 0x39, 0x4a, 0x4c, 0x58, 0xcf,
   0xd0, 0xef, 0xaa, 0xfb, 0x43, 0x4d, 0x33, 0x85, 0x45, 0xf9, 0x02, 0x7f, 0x50, 0x3c, 0x9f, 0xa8,
   0x51, 0xa3, 0x40, 0x8f, 0x92, 0x9d, 0x38, 0xf5, 0xbc, 0xb6, 0xda, 0x21, 0x10, 0xff, 0xf3, 0xd2,
   0xcd, 0x0c, 0x13, 0xec, 0x5f, 0x97, 0x44, 0x17, 0xc4, 0xa7, 0x7e, 0x3d, 0x64, 0x5d, 0x19, 0x73,
   0x60, 0x81, 0x4f, 0xdc, 0x22, 0x2a, 0x90, 0x88, 0x46, 0xee, 0xb8, 0x14, 0xde, 0x5e, 0x0b, 0xdb,
   0xe0, 0x32, 0x3a, 0x0a, 0x49, 0x06, 0x24, 0x5c, 0xc2, 0xd3, 0xac, 0x62, 0x91, 0x95, 0xe4, 0x79,
   0xe7, 0xc8, 0x37, 0x6d, 0x8d, 0xd5, 0x4e, 0xa9, 0x6c, 0x56, 0xf4, 0xea, 0x65, 0x7a, 0xae, 0x08,
   0xba, 0x78, 0x25, 0x2e, 0x1c, 0xa6, 0xb4, 0xc6, 0xe8, 0xdd, 0x74, 0x1f, 0x4b, 0xbd, 0x8b, 0x8a,
   0x70, 0x3e, 0xb5, 0x66, 0x48, 0x03, 0xf6, 0x0e, 0x61, 0x35, 0x57, 0xb9, 0x86, 0xc1, 0x1d, 0x9e,
   0xe1, 0xf8, 0x98, 0x11, 0x69, 0xd9, 0x8e, 0x94, 0x9b, 0x1e, 0x87, 0xe9, 0xce, 0x55, 0x28, 0xdf,
   0x8c, 0xa1, 0x89, 0x0d, 0xbf, 0xe6, 0x42, 0x68, 0x41, 0x99, 0x2d, 0x0f, 0xb0, 0x54, 0xbb, 0x16]

/-- S-box lookup. -/
def sb (x : Nat) : Nat := sboxTable.getD x 0

/-- Multiplication by 2 in GF(2^8) with the AES polynomial. -/
def xtime (x : Nat) : Nat := if x < 128 then x * 2 else (x * 2) ^^^ 0x11B

/-- Byte-wise xor of two equal-length byte lists. -/
def xorBytes (a b : List Nat) : List Nat := List.zipWith (fun x y => x ^^^ y) a b

/-- AES round constants (as the first byte of the round-constant word). -/
def rconTable : List Nat := [0x01, 0x02, 0x04, 0x08, 0x10, 0x20, 0x40, 0x80, 0x1B, 0x36]

/-- Rotate a 4-byte word left by one byte. -/
def rotWord (w : List Nat) : List Nat := w.drop 1 ++ w.take 1

/-- Apply the S-box to each byte of a word. -/
def subWord (w : List Nat) : List Nat := w.map sb

/-- One step of the AES-128 key schedule: append the next 4-byte word. -/
def nextWord (ws : List (List Nat)) : List Nat :=
  let i := ws.length
  let prev := ws.getD (i - 1) []
  let temp :=
    if i % 4 == 0 then
      xorBytes (subWord (rotWord prev)) [rconTable.getD (i / 4 - 1) 0, 0, 0, 0]
    else prev
  xorBytes (ws.getD (i - 4) []) temp

/-- Expand the key schedule by `n` further words. -/
def expandWords (ws : List (List Nat)) : Nat → List (List Nat)
  | 0 => ws
  | n + 1 => expandWords (ws ++ [nextWord ws]) n

/-- The 44 words of the AES-128 key schedule for a 16-byte key. -/
def keySchedule (key : List Nat) : List (List Nat) :=
  expandWords [key.take 4, (key.drop 4).take 4, (key.drop 8).take 4, (key.drop 12).take 4] 40

/-- Round key `r` (16 bytes) from the key schedule. -/
def roundKey (ws : List (List Nat)) (r : Nat) : List Nat :=
  ws.getD (4 * r) [] ++ ws.getD (4 * r + 1) [] ++ ws.getD (4 * r + 2) [] ++ ws.getD (4 * r + 3) []

/-- SubBytes on a 16-byte state. -/
def subBytes (s : List Nat) : List Nat := s.map sb

/-- ShiftRows on a 16-byte state in FIPS column-major byte order. -/
def shiftRows (s : List Nat) : List Nat :=
  [s.getD 0 0, s.getD 5 0, s.getD 10 0, s.getD 15 0,
   s.getD 4 0, s.getD 9 0, s.getD 14 0, s.getD 3 0,
   s.getD 8 0, s.getD 13 0, s.getD 2 0, s.getD 7 0,
   s.getD 12 0, s.getD 1 0, s.getD 6 0, s.getD 11 0]

/-- MixColumns on a single 4-byte column. -/
def mixCol (c : List Nat) : List Nat :=
  match c with
  | [a0, a1, a2, a3] =>
      [xtime a0 ^^^ (xtime a1 ^^^ a1) ^^^ a2 ^^^ a3,
       a0 ^^^ xtime a1 ^^^ (xtime a2 ^^^ a2) ^^^ a3,
       a0 ^^^ a1 ^^^ xtime a2 ^^^ (xtime a3 ^^^ a3),
       (xtime a0 ^^^ a0) ^^^ a1 ^^^ a2 ^^^ xtime a3]
  | _ => c

/-- MixColumns on a 16-byte state. -/
def mixColumns (s : List Nat) : List Nat :=
  mixCol (s.take 4) ++ mixCol ((s.drop 4).take 4) ++ mixCol ((s.drop 8).take 4) ++
    mixCol (s.drop 12)

/-- AES-128 single-block encryption (FIPS-197 byte order). -/
def aes128Encrypt (key block : List Nat) : List Nat :=
  let ws := keySchedule key
  let s0 := xorBytes block (roundKey ws 0)
  let s9 := (List.range 9).foldl
    (fun s i => xorBytes (mixColumns (shiftRows (subBytes s))) (roundKey ws (i + 1))) s0
  xorBytes (shiftRows (subBytes s9)) (roundKey ws 10)

/-! ## `src/utils.rs`: the Bluetooth `e` function and `ah` -/

/-- `e(key, data)` from `src/utils.rs`: AES-128 on the byte-reversed key and
data, with the output byte-reversed again. -/
def e (key data : List Nat) : List Nat :=
  (aes128Encrypt key.reverse data.reverse).reverse

/-- `ah(k, r)` from `src/utils.rs`: place the 3-byte `r` in the low bytes of a
16-byte zero block, apply `e`, and take the first 3 bytes. -/
def ah (k r : List Nat) : List Nat :=
  (e k (r ++ List.replicate 13 0)).take 3

/-! ## `src/bluetooth/le.rs`: RPA verification

`verify_rpa` splits the textual address on `':'`, parses each piece with
`u8::from_str_radix(s, 16)` (panicking on failure, modelled as `none`),
reverses the octet order, and compares the low 3 bytes against
`ah(irk, high 3 bytes)`. -/

/-- Value of one hex digit, as accepted by Rust's `from_str_radix` radix 16. -/
def hexDigitVal (c : Char) : Option Nat :=
  if '0' ≤ c ∧ c ≤ '9' then some (c.toNat - '0'.toNat)
  else if 'a' ≤ c ∧ c ≤ 'f' then some (c.toNat - 'a'.toNat + 10)
  else if 'A' ≤ c ∧ c ≤ 'F' then some (c.toNat - 'A'.toNat + 10)
  else none

/-- Accumulate hex digits left to right. -/
def hexAccum (cs : List Char) (acc : Nat) : Option Nat :=
  match cs with
  | [] => some acc
  | c :: rest =>
      match hexDigitVal c with
      | some d => hexAccum rest (acc * 16 + d)
      | none => none

/-- Rust `u8::from_str_radix(s, 16)`: an optional leading sign, at least one
hex digit, and a result that fits in a `u8`. -/
def parseU8Hex (cs : List Char) : Option Nat :=
  let digits := match cs with
    | '+' :: rest => rest
    | _ => cs
  if digits.isEmpty then none
  else
    match hexAccum digits 0 with
    | some v => if v < 256 then some v else none
    | none => none

/-- Rust `str::split(':')` on a character list (empty pieces preserved). -/
def splitColon (cs : List Char) : List (List Char) :=
  cs.foldr
    (fun c acc =>
      match acc with
      | g :: rest => if c = ':' then [] :: g :: rest else (c :: g) :: rest
      | [] => [[c]])
    [[]]

/-- `verify_rpa` from `src/bluetooth/le.rs`. `none` models the `unwrap` panic
on an unparsable octet; otherwise `some` of the boolean verdict. -/
def verify_rpa (addr : List Char) (irk : List Nat) : Option Bool :=
  match (splitColon addr).mapM parseU8Hex with
  | none => none
  | some octets =>
      let rpa := octets.reverse
      if rpa.length ≠ 6 then some false
      else
        let prand := (rpa.drop 3).take 3
        let hash := rpa.take 3
        some (hash == ah irk prand)

/-! ## `src/devices/apple_models.rs` and `src/devices/airpods.rs`: handshake -/

/-- `needs_init_ext` from `src/devices/apple_models.rs`. -/
def needs_init_ext (productId : Nat) : Bool :=
  productId == 0x201b || productId == 0x2014 || productId == 0x2027 || productId == 0x2024

/-- The packets sent by `AirPodsDevice::new` during session setup.
`somePacket` is the unlabeled `send_some_packet` blob. -/
inductive HSPacket where
  | handshake
  | setFeatureFlags
  | requestNotifications
  | somePacket
  | initExt
  | requestProximityKeys
deriving DecidableEq, Repr

/-- A step of the session-setup sequence: a packet send, or a wait for any
inbound frame bounded by 500 ms (`timeout(500ms, notify.notified())`). -/
inductive HSAction where
  | send (p : HSPacket)
  | waitFrameOr500
deriving DecidableEq, Repr

/-- The session-setup trace of `AirPodsDevice::new` (src/devices/airpods.rs,
lines 96-134), as a function of the product ID. -/
def handshakeTrace (productId : Nat) : List HSAction :=
  [.send .handshake, .waitFrameOr500,
   .send .setFeatureFlags, .waitFrameOr500,
   .send .requestNotifications,
   .send .somePacket] ++
  (if needs_init_ext productId then [.waitFrameOr500, .send .initExt] else []) ++
  [.send .requestProximityKeys]

/-- The packets of a trace, in send order. -/
def sendsOf (tr : List HSAction) : List HSPacket :=
  tr.filterMap fun a => match a with | .send p => some p | .waitFrameOr500 => none

/-! ## `src/bluetooth/le.rs`: BLE advertisement decoding -/

/-- Battery component, as used by the `BatteryInfo` events built in
`src/bluetooth/le.rs`. -/
inductive BatteryComponent where
  | left
  | right
  | batCase
  | headphone
deriving DecidableEq, Repr

/-- Battery charge status attached to each component. -/
inductive BatteryStatus where
  | charging
  | notCharging
  | inUse
deriving DecidableEq, Repr

/-- One battery reading, as emitted inside `AACPEvent::BatteryInfo`. -/
structure BatteryInfo where
  component : BatteryComponent
  level : Nat
  status : BatteryStatus
deriving DecidableEq, Repr

/-- The battery list built from the three decrypted battery bytes
(src/bluetooth/le.rs, lines 272-323): a byte of `0xFF` contributes no entry;
any other byte contributes level `byte &&& 0x7F` and charging
`byte &&& 0x80 ≠ 0`. -/
def batteryList (leftByte rightByte caseByte : Nat) : List BatteryInfo :=
  let leftPair := if leftByte == 0xff then (0, false)
    else (leftByte &&& 0x7F, leftByte &&& 0x80 != 0)
  let rightPair := if rightByte == 0xff then (0, false)
    else (rightByte &&& 0x7F, rightByte &&& 0x80 != 0)
  let casePair := if caseByte == 0xff then (0, false)
    else (caseByte &&& 0x7F, caseByte &&& 0x80 != 0)
  (if leftByte != 0xff then
    [{ component := .left, level := leftPair.1,
       status := if leftPair.2 then .charging else .notCharging }] else []) ++
  (if rightByte != 0xff then
    [{ component := .right, level := rightPair.1,
       status := if rightPair.2 then .charging else .notCharging }] else []) ++
  (if caseByte != 0xff then
    [{ component := .batCase, level := casePair.1,
       status := if casePair.2 then .charging else .notCharging }] else [])

/-- `primary_left` of the raw status byte (bit 5). -/
def primaryLeft (status : Nat) : Bool := (status >>> 5) &&& 0x01 == 1

/-- `this_in_case` of the raw status byte (bit 6). -/
def thisInCase (status : Nat) : Bool := (status >>> 6) &&& 0x01 == 1

/-- `xor_factor` of the raw status byte. -/
def xorFactor (status : Nat) : Bool := xor (primaryLeft status) (thisInCase status)

/-- In-ear decoding of the raw status byte (src/bluetooth/le.rs, lines
249-262): the pair `(is_left_in_ear, is_right_in_ear)`. -/
def advertInEar (status : Nat) : Bool × Bool :=
  let isLeftInEar := if xorFactor status then status &&& 0x02 != 0 else status &&& 0x08 != 0
  let isRightInEar := if xorFactor status then status &&& 0x08 != 0 else status &&& 0x02 != 0
  (isLeftInEar, isRightInEar)

/-- Battery extraction from a decoded advertisement (src/bluetooth/le.rs,
lines 263-323): `is_flipped = ¬primary_left` selects which of the decrypted
bytes 1 and 2 is the left bud; byte 3 is the case. -/
def advertBattery (status : Nat) (decrypted : List Nat) : List BatteryInfo :=
  let isFlipped := !primaryLeft status
  let leftByteIndex := if isFlipped then 2 else 1
  let rightByteIndex := if isFlipped then 1 else 2
  batteryList (decrypted.getD leftByteIndex 0) (decrypted.getD rightByteIndex 0)
    (decrypted.getD 3 0)

/-! ## `src/bluetooth/le.rs`: auto-connect arbiter -/

/-- Result of the external `bluetoothctl connect` invocation. -/
inductive ConnectOutcome where
  | success      -- `Ok(output)` with success status
  | failedStatus -- `Ok(output)` with non-success status
  | execError    -- `Err(_)` from spawning the command
deriving DecidableEq, Repr

/-- One auto-connect request (src/bluetooth/le.rs, lines 189-246) against the
`connecting_macs` set, modelled as a list without duplicates. Returns the set
after the request completes and whether the external connect was invoked.
The source removes the address from the set only in the success branch. -/
def autoConnectStep (connectingMacs : List String) (mac : String)
    (outcome : ConnectOutcome) : List String × Bool :=
  if mac ∈ connectingMacs then (connectingMacs, false)
  else
    let inserted := mac :: connectingMacs
    match outcome with
    | .success => (inserted.erase mac, true)
    | .failedStatus => (inserted, true)
    | .execError => (inserted, true)

/-! ## `src/media_controller.rs`: the media/ownership coordinator

The coordinator's observable side effects (MPRIS pause/resume, card-profile
changes, AACP sends) are recorded as `MCAction`s; the PulseAudio/D-Bus
plumbing inside them is an external collaborator. The set of currently
playing (non-kdeconnect) MPRIS services is part of the modelled world and is
emptied by a pause and extended by a resume, matching what the D-Bus calls
do to the players. -/

/-- Ear detection status, as carried by `AACPEvent::EarDetection`
(the `EarDetectionStatus` enum of the AACP module). -/
inductive EarDetectionStatus where
  | inEar
  | outOfEar
  | inCase
deriving DecidableEq, Repr

/-- A connected peer as kept in `peer_state.connected_peers`. -/
structure ConnectedDevice where
  mac : String
  info1 : String
  info2 : String
deriving DecidableEq, Repr

/-- Observable side effects of the coordinator. -/
inductive MCAction where
  | sendControlCommand (identifier : Nat) (value : List Nat)
  | activateA2dp
  | deactivateA2dp
  | pauseServices (services : List String)
  | resumeServices (services : List String)
  | sendMediaInformation (localMac peerMac : String) (isPlaying : Bool)
  | sendSmartRoutingShowUi (peerMac : String)
  | sendHijackRequest (peerMac : String)
deriving DecidableEq, Repr

/-- The `OwnsConnection` control-command identifier. -/
def ownsConnectionId : Nat := 0x2E

/-- The fields of `MediaControllerState` touched by ear detection and
playback handling (src/media_controller.rs, lines 41-56). -/
structure MCState where
  isPlaying : Bool
  pausedByAppServices : List String
  oldInEarData : List Bool
  userPlayedTheMedia : Bool
  iPausedTheMedia : Bool
  earDetectionEnabled : Bool
  disconnectWhenNotWearing : Bool
deriving DecidableEq, Repr

/-- The coordinator state together with the external world it drives: the
list of currently playing non-kdeconnect MPRIS services. -/
structure MCWorld where
  mc : MCState
  playing : List String
deriving DecidableEq, Repr

/-- `MediaController::pause` (src/media_controller.rs, lines 413-477): pause
every playing service; when at least one was paused, remember the list in
`paused_by_app_services` and clear `is_playing`. -/
def pauseStep (w : MCWorld) : MCWorld × List MCAction :=
  let pausedServices := w.playing
  if pausedServices.isEmpty then (w, [])
  else
    ({ mc := { w.mc with pausedByAppServices := pausedServices, isPlaying := false },
       playing := [] },
     [.pauseServices pausedServices])

/-- `MediaController::resume` (src/media_controller.rs, lines 620-670):
replay `Play` to the remembered services; when at least one resumed, clear
the remembered list. -/
def resumeStep (w : MCWorld) : MCWorld × List MCAction :=
  let services := w.mc.pausedByAppServices
  if services.isEmpty then (w, [])
  else
    ({ mc := { w.mc with pausedByAppServices := [] },
       playing := w.playing ++ services },
     [.resumeServices services])

/-- Rust `Vec<bool>::sort()`: all `false` entries before all `true`. -/
def sortBools (l : List Bool) : List Bool :=
  List.replicate (l.countP (fun b => !b)) false ++ List.replicate (l.countP id) true

/-- `MediaController::handle_ear_detection` (src/media_controller.rs, lines
225-335). Returns the world after the call and the actions performed. -/
def handleEarDetection (w : MCWorld)
    (oldStatuses newStatuses : List EarDetectionStatus) : MCWorld × List MCAction :=
  let oldInEarData := oldStatuses.map (fun s => s == .inEar)
  let newInEarData := newStatuses.map (fun s => s == .inEar)
  let inEar := newInEarData.all id
  let oldAllOut := oldInEarData.all (fun b => !b)
  let newHasAtLeastOneIn := newInEarData.any id
  let newAllOut := newInEarData.all (fun b => !b)
  if !w.mc.earDetectionEnabled then (w, [])
  else
    -- insertion / removal block
    let (w1, acts1) :=
      if newHasAtLeastOneIn && oldAllOut then
        let w' : MCWorld :=
          if w.mc.isPlaying then { w with mc := { w.mc with userPlayedTheMedia := true } }
          else w
        (w', [MCAction.activateA2dp])
      else if newAllOut then
        let (wp, actsP) := pauseStep w
        if wp.mc.disconnectWhenNotWearing then (wp, actsP ++ [MCAction.deactivateA2dp])
        else (wp, actsP)
      else (w, [])
    -- reset of user_played_the_media
    let resetUserPlayed :=
      (oldInEarData.any (fun b => !b) && newInEarData.all id) ||
      (newInEarData.any (fun b => !b) && oldInEarData.all id)
    let w2 :=
      if resetUserPlayed then { w1 with mc := { w1.mc with userPlayedTheMedia := false } }
      else w1
    -- sort-unequal resume/pause block
    let (w3, acts3) :=
      if sortBools newInEarData ≠ sortBools oldInEarData then
        if inEar then
          let (wr, actsR) := resumeStep w2
          ({ wr with mc := { wr.mc with iPausedTheMedia := false } }, actsR)
        else if !oldAllOut then
          let (wp, actsP) := pauseStep w2
          ({ wp with mc := { wp.mc with iPausedTheMedia := true } }, actsP)
        else
          let (wr, actsR) := resumeStep w2
          ({ wr with mc := { wr.mc with iPausedTheMedia := false } }, actsR)
      else (w2, [])
    ({ w3 with mc := { w3.mc with oldInEarData := newInEarData } }, acts1 ++ acts3)

/-- One fired iteration of `MediaController::playback_listener_loop`
(src/media_controller.rs, lines 140-180), at the point where the poll has
just read `is_playing`; `wasPlaying` is the previous `state.is_playing`,
`earStatuses` is the session's `ear_detection_status` and
`connectedDevices` its `connected_devices`. Returns the AACP/profile
actions of the tick. -/
def playbackTick (wasPlaying isPlaying : Bool)
    (earStatuses : List EarDetectionStatus)
    (connectedDevices : List ConnectedDevice) (localMac : String) : List MCAction :=
  if !wasPlaying && isPlaying then
    if ¬ (EarDetectionStatus.inEar ∈ earStatuses) then []
    else
      [MCAction.sendControlCommand ownsConnectionId [0x01], MCAction.activateA2dp] ++
      connectedDevices.flatMap fun device =>
        if device.mac ≠ localMac then
          [MCAction.sendMediaInformation localMac device.mac true,
           MCAction.sendSmartRoutingShowUi device.mac,
           MCAction.sendHijackRequest device.mac]
        else []
  else []

/-! ## `src/media_controller.rs`: conversational awareness -/

/-- The conversational-awareness fields of `MediaControllerState` together
with the current sink volume (percent) of the device's audio sink. -/
structure ConvState where
  convOriginalVolume : Option Nat
  convConversationStarted : Bool
  sinkVolume : Nat
deriving DecidableEq, Repr

/-- `MediaController::handle_conversational_awareness`
(src/media_controller.rs, lines 1000-1208), with the sink present and its
volume readable. Returns the state after the call and the list of volume
targets passed to `transition_sink_volume`. -/
def handleConversationalAwareness (s : ConvState) (status : Nat) :
    ConvState × List Nat :=
  if status = 1 then
    let original := s.sinkVolume
    let s' :=
      if !s.convConversationStarted then
        { s with convOriginalVolume := some original, convConversationStarted := true }
      else s
    if original > 25 then ({ s' with sinkVolume := 25 }, [25]) else (s', [])
  else if status = 2 then
    match s.convOriginalVolume with
    | some orig => if orig > 15 then ({ s with sinkVolume := 15 }, [15]) else (s, [])
    | none => (s, [])
  else if status = 3 then
    if !s.convConversationStarted then (s, [])
    else
      match s.convOriginalVolume with
      | some orig =>
          let target := if orig > 25 then 25 else orig
          ({ s with sinkVolume := target }, [target])
      | none =>
          let target := if s.sinkVolume > 25 then 25 else s.sinkVolume
          ({ s with sinkVolume := target }, [target])
  else if status = 4 ∨ status = 6 ∨ status = 7 then
    if s.convConversationStarted then
      let maybeOriginal := s.convOriginalVolume
      let s' := { s with convOriginalVolume := none, convConversationStarted := false }
      match maybeOriginal with
      | some orig => ({ s' with sinkVolume := orig }, [orig])
      | none => (s', [])
    else (s, [])
  else (s, [])

/-- Fold a sequence of conversational-awareness statuses, accumulating the
volume targets. -/
def runConvAwareness (s : ConvState) (statuses : List Nat) : ConvState × List Nat :=
  statuses.foldl
    (fun acc st =>
      let (s', ts) := handleConversationalAwareness acc.1 st
      (s', acc.2 ++ ts))
    (s, [])

/-! ## `src/bluetooth/att.rs`: receive loop packet handling -/

/-- What the ATT receive loop does with one received packet. -/
inductive RecvResult where
  | ignored                                   -- empty data: `continue`
  | notification (handle : Nat) (value : List Nat) -- opcode 0x1B: fan out
  | emptyResponse                             -- opcode 0x13: deliver `[]`
  | response (payload : List Nat)             -- anything else: deliver tail
deriving DecidableEq, Repr

/-- The body of `recv_thread` for one packet (src/bluetooth/att.rs, lines
233-254). `data` is the received byte slice (`n > 0` reads). Rust's
`data[1]`, `data[2]` and `data[3..]` panic when the slice is too short;
a panic (fatal task abort) is modelled as `none`. -/
def handlePacket (data : List Nat) : Option RecvResult :=
  if data.isEmpty then some .ignored
  else if data.getD 0 0 == 0x1B then
    match data.get? 1, data.get? 2 with
    | some b1, some b2 =>
        some (.notification (b1 ||| (b2 <<< 8)) (data.drop 3))
    | _, _ => none
  else if data.getD 0 0 == 0x13 then some .emptyResponse
  else some (.response (data.drop 1))

/-! ## `src/ipc.rs`: snapshot folding -/

/-- A control-command value as kept in the snapshot. -/
structure ControlCommandStatus where
  identifier : Nat
  value : List Nat
deriving DecidableEq, Repr

/-- The AACP event variants distinguished by `update_snapshot`; every
variant the source matches with `_` (ear detection, stem presses,
connected-device lists, ...) is collapsed into `other`. -/
inductive AACPEvent where
  | batteryInfo (infos : List BatteryInfo)
  | controlCommand (cmd : ControlCommandStatus)
  | deviceInfo (payload : String)
  | other (tag : Nat)
deriving DecidableEq, Repr

/-- `AppEvent` from `src/tui/app.rs` (lines 14-19). -/
inductive AppEvent where
  | deviceConnected (mac name : String) (isNothing : Bool) (productId : Nat)
  | deviceDisconnected (mac : String)
  | aacpEvent (mac : String) (ev : AACPEvent)
  | audioUnavailable
deriving DecidableEq, Repr

/-- Does a snapshot entry belong to device `mac`? -/
def mentionsMac (mac : String) : AppEvent → Bool
  | .deviceConnected m _ _ _ => m == mac
  | .deviceDisconnected m => m == mac
  | .aacpEvent m _ => m == mac
  | .audioUnavailable => false

/-- Is the entry a `BatteryInfo` event of device `mac`? -/
def isBatteryOf (mac : String) : AppEvent → Bool
  | .aacpEvent m (.batteryInfo _) => m == mac
  | _ => false

/-- Is the entry a `DeviceInfo` event of device `mac`? -/
def isDeviceInfoOf (mac : String) : AppEvent → Bool
  | .aacpEvent m (.deviceInfo _) => m == mac
  | _ => false

/-- Is the entry a `ControlCommand` event of device `mac` with the given
identifier? -/
def isControlCommandOf (mac : String) (ident : Nat) : AppEvent → Bool
  | .aacpEvent m (.controlCommand c) => m == mac && c.identifier == ident
  | _ => false

/-- `update_snapshot` from `src/ipc.rs` (lines 44-88). -/
def updateSnapshot (snapshot : List AppEvent) (event : AppEvent) : List AppEvent :=
  match event with
  | .deviceConnected mac _ _ _ =>
      (snapshot.filter fun e =>
        match e with
        | .deviceConnected m _ _ _ => m != mac
        | .aacpEvent m _ => m != mac
        | _ => true) ++ [event]
  | .deviceDisconnected mac =>
      snapshot.filter fun e =>
        match e with
        | .deviceConnected m _ _ _ => m != mac
        | .aacpEvent m _ => m != mac
        | .deviceDisconnected m => m != mac
        | _ => true
  | .aacpEvent mac aacpEv =>
      (match aacpEv with
       | .batteryInfo _ => snapshot.filter fun e => !isBatteryOf mac e
       | .controlCommand cmd =>
           snapshot.filter fun e => !isControlCommandOf mac cmd.identifier e
       | .deviceInfo _ => snapshot.filter fun e => !isDeviceInfoOf mac e
       | .other _ => snapshot) ++ [event]
  | .audioUnavailable =>
      if !(snapshot.any fun e => e == .audioUnavailable) then snapshot ++ [event]
      else snapshot

/-! ## Concrete inputs used by witnesses -/

/-- The IRK of the spec's RPA end-to-end scenario. -/
def c1Irk : List Nat :=
  [0x9e, 0xfb, 0x13, 0xf8, 0x89, 0x12, 0x4c, 0x83,
   0x6b, 0x1a, 0x3f, 0x91, 0x02, 0xad, 0x6e, 0x5d]

/-- A textual address whose wire form is `ah(c1Irk, [0x11,0x22,0x33])`
followed by the prand `[0x11, 0x22, 0x33]`. -/
def c1Addr : List Char :=
  ['3', '3', ':', '2', '2', ':', '1', '1', ':', '4', '5', ':', 'd', 'd', ':', 'e', 'e']

/-! ## Claims -/

/-- C1: for every 16-byte IRK and every 6-octet colon-separated address
string, the RPA verifier accepts the address iff, after reversing the octet
order into wire form, the bottom 3 bytes equal `ah(irk, prand)` computed from
the top 3 bytes, where `ah` left-pads the 3-byte prand with 13 zero bytes
(in the byte-reversed big-endian view the zeros sit in front), applies
AES-128 to the byte-reversed key and message, reverses the output again and
takes the first 3 bytes. -/
theorem c1_rpa_verifier_iff (irk : List Nat) (addr : List Char)
    (o0 o1 o2 o3 o4 o5 : Nat)
    (hparse : (splitColon addr).mapM parseU8Hex = some [o0, o1, o2, o3, o4, o5]) :
    verify_rpa addr irk = some true ↔
      [o5, o4, o3] =
        ((aes128Encrypt irk.reverse
            (List.replicate 13 0 ++ [o0, o1, o2])).reverse).take 3 := by
  simp only [verify_rpa]
  rw [hparse]
  simp [ah, e, List.reverse_replicate]

/-- Witness for C1 at the spec's scenario IRK and a matching address. -/
theorem c1_rpa_verifier_iff_witness :
    verify_rpa c1Addr c1Irk = some true ↔
      [0xee, 0xdd, 0x45] =
        ((aes128Encrypt c1Irk.reverse
            (List.replicate 13 0 ++ [0x33, 0x22, 0x11])).reverse).take 3 :=
  c1_rpa_verifier_iff c1Irk c1Addr 0x33 0x22 0x11 0x45 0xdd 0xee (by decide)

/-- C2 counterexample: the claim, read as "the trace is the five named
packets with a wait between each consecutive pair", is false at product ID
0x2014 (an INIT_EXT model): the source inserts an extra unlabeled packet
after REQUEST_NOTIFICATIONS and does not wait before it, nor before
REQUEST_PROXIMITY_KEYS. -/
theorem c2_handshake_pacing_counterexample :
    ¬ handshakeTrace 0x2014 =
      List.intersperse HSAction.waitFrameOr500
        ([HSPacket.handshake, .setFeatureFlags, .requestNotifications,
          .initExt, .requestProximityKeys].map HSAction.send) := by
  decide

/-- C2 (amended): the handshake sends, in order, HANDSHAKE,
SET_FEATURE_FLAGS, REQUEST_NOTIFICATIONS, an unlabeled extra packet,
INIT_EXT (exactly for product IDs 0x201b, 0x2014, 0x2027, 0x2024), and
REQUEST_PROXIMITY_KEYS; the session waits for any inbound frame or 500 ms
after HANDSHAKE, after SET_FEATURE_FLAGS and, when INIT_EXT is sent,
immediately before INIT_EXT — but not between REQUEST_NOTIFICATIONS and the
extra packet, nor before REQUEST_PROXIMITY_KEYS. -/
theorem c2_handshake_pacing_amended (productId : Nat) :
    (HSPacket.initExt ∈ sendsOf (handshakeTrace productId) ↔
      productId = 0x201b ∨ productId = 0x2014 ∨ productId = 0x2027 ∨
        productId = 0x2024) ∧
    (productId = 0x201b ∨ productId = 0x2014 ∨ productId = 0x2027 ∨
        productId = 0x2024 →
      handshakeTrace productId =
        [.send .handshake, .waitFrameOr500, .send .setFeatureFlags,
         .waitFrameOr500, .send .requestNotifications, .send .somePacket,
         .waitFrameOr500, .send .initExt, .send .requestProximityKeys]) ∧
    (¬ (productId = 0x201b ∨ productId = 0x2014 ∨ productId = 0x2027 ∨
        productId = 0x2024) →
      handshakeTrace productId =
        [.send .handshake, .waitFrameOr500, .send .setFeatureFlags,
         .waitFrameOr500, .send .requestNotifications, .send .somePacket,
         .send .requestProximityKeys]) := by
  have hiff : needs_init_ext productId = true ↔
      productId = 0x201b ∨ productId = 0x2014 ∨ productId = 0x2027 ∨
        productId = 0x2024 := by
    simp [needs_init_ext, or_assoc]
  by_cases h : needs_init_ext productId = true
  · have htr : handshakeTrace productId =
        [.send .handshake, .waitFrameOr500, .send .setFeatureFlags,
         .waitFrameOr500, .send .requestNotifications, .send .somePacket,
         .waitFrameOr500, .send .initExt, .send .requestProximityKeys] := by
      simp [handshakeTrace, h]
    refine ⟨?_, fun _ => htr, fun hn => absurd (hiff.mp h) hn⟩
    rw [htr]
    exact ⟨fun _ => hiff.mp h, fun _ => by decide⟩
  · have h' : needs_init_ext productId = false := by
      revert h; cases needs_init_ext productId <;> simp
    have htr : handshakeTrace productId =
        [.send .handshake, .waitFrameOr500, .send .setFeatureFlags,
         .waitFrameOr500, .send .requestNotifications, .send .somePacket,
         .send .requestProximityKeys] := by
      simp [handshakeTrace, h']
    refine ⟨?_, fun hp => absurd (hiff.mpr hp) h, fun _ => htr⟩
    rw [htr]
    exact ⟨fun hmem => absurd hmem (by decide), fun hp => absurd (hiff.mpr hp) h⟩

/-- Witness for C2 (amended) at product ID 0x2014. -/
theorem c2_handshake_pacing_amended_witness :
    handshakeTrace 0x2014 =
      [.send .handshake, .waitFrameOr500, .send .setFeatureFlags,
       .waitFrameOr500, .send .requestNotifications, .send .somePacket,
       .waitFrameOr500, .send .initExt, .send .requestProximityKeys] :=
  (c2_handshake_pacing_amended 0x2014).2.1 (Or.inr (Or.inl rfl))

/-- C3 counterexample: with one bud in ear and one out, the claim says the
takeover is skipped, but the source only skips when no status is `InEar`
(`!ear_detection_status.contains(&InEar)`), so it proceeds. -/
theorem c3_takeover_counterexample :
    ¬ playbackTick false true [.inEar, .outOfEar]
        [{ mac := "AA:AA:AA:AA:AA:AA", info1 := "", info2 := "" }]
        "BB:BB:BB:BB:BB:BB" = [] := by
  decide

/-- C3 (amended): on a not-playing → playing poll tick, the takeover is
skipped iff no bud is reported in-ear; when at least one bud is in-ear it
sends `OwnsConnection = 0x01`, activates A2DP, and for every connected peer
other than the local adapter sends `MediaInformation(local, peer, true)`,
`SmartRoutingShowUI(peer)` and `HijackRequest(peer)` in that order. On a
tick without that transition, nothing is sent. -/
theorem c3_takeover_amended (wasPlaying isPlaying : Bool)
    (earStatuses : List EarDetectionStatus)
    (devices : List ConnectedDevice) (localMac : String) :
    (wasPlaying = false → isPlaying = true →
      (EarDetectionStatus.inEar ∉ earStatuses →
        playbackTick wasPlaying isPlaying earStatuses devices localMac = []) ∧
      (EarDetectionStatus.inEar ∈ earStatuses →
        playbackTick wasPlaying isPlaying earStatuses devices localMac =
          [MCAction.sendControlCommand ownsConnectionId [0x01],
           MCAction.activateA2dp] ++
          devices.flatMap fun d =>
            if d.mac ≠ localMac then
              [MCAction.sendMediaInformation localMac d.mac true,
               MCAction.sendSmartRoutingShowUi d.mac,
               MCAction.sendHijackRequest d.mac]
            else [])) ∧
    (wasPlaying = true ∨ isPlaying = false →
      playbackTick wasPlaying isPlaying earStatuses devices localMac = []) := by
  constructor
  · rintro rfl rfl
    constructor
    · intro hnot
      simp [playbackTick, hnot]
    · intro hmem
      simp [playbackTick, hmem]
  · rintro (rfl | rfl) <;> simp [playbackTick]

/-- Witness for C3 (amended): both buds in ear, one remote peer. -/
theorem c3_takeover_amended_witness :
    playbackTick false true [.inEar, .inEar]
        [{ mac := "AA:AA:AA:AA:AA:AA", info1 := "i1", info2 := "i2" }]
        "BB:BB:BB:BB:BB:BB" =
      [MCAction.sendControlCommand ownsConnectionId [0x01],
       MCAction.activateA2dp] ++
      [({ mac := "AA:AA:AA:AA:AA:AA", info1 := "i1", info2 := "i2" } :
          ConnectedDevice)].flatMap
        (fun d =>
          if d.mac ≠ "BB:BB:BB:BB:BB:BB" then
            [MCAction.sendMediaInformation "BB:BB:BB:BB:BB:BB" d.mac true,
             MCAction.sendSmartRoutingShowUi d.mac,
             MCAction.sendHijackRequest d.mac]
          else []) :=
  ((c3_takeover_amended false true [.inEar, .inEar]
      [{ mac := "AA:AA:AA:AA:AA:AA", info1 := "i1", info2 := "i2" }]
      "BB:BB:BB:BB:BB:BB").1 rfl rfl).2 (by decide)

/-- C4: conversational-awareness status 1 records the current sink volume
only when no conversation is started, sets the started flag, and ducks to
25 only when the current volume exceeds 25; statuses 4, 6 and 7 read-and-
clear the stored volume and flag and fade back to the stored original; and
from volume 70 the sequence [1, 2, 3, 4] produces targets 25, 15, 25, 70
with the stored volume cleared at the end. -/
theorem c4_conversational_awareness :
    (∀ s : ConvState,
      (s.convConversationStarted = false →
        (handleConversationalAwareness s 1).1.convOriginalVolume =
            some s.sinkVolume ∧
          (handleConversationalAwareness s 1).1.convConversationStarted = true) ∧
      (s.convConversationStarted = true →
        (handleConversationalAwareness s 1).1.convOriginalVolume =
          s.convOriginalVolume) ∧
      (handleConversationalAwareness s 1).2 =
        (if s.sinkVolume > 25 then [25] else [])) ∧
    (∀ s : ConvState, ∀ status : Nat, status = 4 ∨ status = 6 ∨ status = 7 →
      s.convConversationStarted = true →
        (handleConversationalAwareness s status).1.convOriginalVolume = none ∧
        (handleConversationalAwareness s status).1.convConversationStarted =
          false ∧
        ∀ orig, s.convOriginalVolume = some orig →
          (handleConversationalAwareness s status).2 = [orig]) ∧
    runConvAwareness ⟨none, false, 70⟩ [1, 2, 3, 4] =
      (⟨none, false, 70⟩, [25, 15, 25, 70]) := by
  refine ⟨?_, ?_, by decide⟩
  · intro s
    refine ⟨fun hs => ?_, fun hs => ?_, ?_⟩
    · by_cases hv : s.sinkVolume > 25 <;>
        simp [handleConversationalAwareness, hs, hv]
    · by_cases hv : s.sinkVolume > 25 <;>
        simp [handleConversationalAwareness, hs, hv]
    · by_cases hv : s.sinkVolume > 25 <;>
        by_cases hs : s.convConversationStarted <;>
          simp [handleConversationalAwareness, hs, hv]
  · intro s status hstatus hs
    have hne1 : status ≠ 1 := by rcases hstatus with rfl | rfl | rfl <;> decide
    have hne2 : status ≠ 2 := by rcases hstatus with rfl | rfl | rfl <;> decide
    have hne3 : status ≠ 3 := by rcases hstatus with rfl | rfl | rfl <;> decide
    refine ⟨?_, ?_, ?_⟩ <;>
      [skip; skip; intro orig horig] <;>
      cases horig' : s.convOriginalVolume <;>
        simp_all [handleConversationalAwareness, hne1, hne2, hne3, hstatus, hs]

/-- Witness for C4: a start step records volume 70, an end step restores it. -/
theorem c4_conversational_awareness_witness :
    (handleConversationalAwareness ⟨none, false, 70⟩ 1).1.convOriginalVolume = some 70 ∧
    (handleConversationalAwareness ⟨some 70, true, 25⟩ 4).2 = [70] :=
  ⟨((c4_conversational_awareness.1 ⟨none, false, 70⟩).1 rfl).1,
   ((c4_conversational_awareness.2.1 ⟨some 70, true, 25⟩ 4 (Or.inl rfl)) rfl).2.2 70 rfl⟩

/-- Membership in the built battery list, characterised per component. -/
theorem mem_batteryList (lb rb cb : Nat) (entry : BatteryInfo) :
    entry ∈ batteryList lb rb cb ↔
      (lb ≠ 0xff ∧ entry =
        ⟨.left, lb &&& 0x7F, if lb &&& 0x80 != 0 then .charging else .notCharging⟩) ∨
      (rb ≠ 0xff ∧ entry =
        ⟨.right, rb &&& 0x7F, if rb &&& 0x80 != 0 then .charging else .notCharging⟩) ∨
      (cb ≠ 0xff ∧ entry =
        ⟨.batCase, cb &&& 0x7F, if cb &&& 0x80 != 0 then .charging else .notCharging⟩) := by
  by_cases hl : lb = 0xff <;> by_cases hr : rb = 0xff <;> by_cases hc : cb = 0xff <;>
    simp [batteryList, hl, hr, hc]

/-- C5: in the battery list emitted for a decoded advertisement, a battery
byte of 0xFF yields no entry for its component, and any other byte yields
the entry with level `byte &&& 0x7F` and charging exactly when
`byte &&& 0x80 ≠ 0`; the left/right bytes are the decrypted bytes 1 and 2
(swapped when `is_flipped`), the case byte is byte 3. -/
theorem c5_battery_bytes (status : Nat) (decrypted : List Nat)
    (lb rb cb : Nat) (entry : BatteryInfo)
    (hlb : lb = decrypted.getD (if !primaryLeft status then 2 else 1) 0)
    (hrb : rb = decrypted.getD (if !primaryLeft status then 1 else 2) 0)
    (hcb : cb = decrypted.getD 3 0) :
    entry ∈ advertBattery status decrypted ↔
      (lb ≠ 0xff ∧ entry =
        ⟨.left, lb &&& 0x7F, if lb &&& 0x80 != 0 then .charging else .notCharging⟩) ∨
      (rb ≠ 0xff ∧ entry =
        ⟨.right, rb &&& 0x7F, if rb &&& 0x80 != 0 then .charging else .notCharging⟩) ∨
      (cb ≠ 0xff ∧ entry =
        ⟨.batCase, cb &&& 0x7F, if cb &&& 0x80 != 0 then .charging else .notCharging⟩) := by
  subst hlb hrb hcb
  exact mem_batteryList _ _ _ entry

/-- Witness for C5: primary-left frame, left byte 0x85 (5%, charging),
right byte 0xFF (absent), case byte 0x64 (100%, not charging). -/
theorem c5_battery_bytes_witness :
    ({ component := .right, level := 0, status := .notCharging } : BatteryInfo) ∈
        advertBattery 0x20 [0x00, 0x85, 0xff, 0x64] ↔
      (0x85 ≠ 0xff ∧
        ({ component := .right, level := 0, status := .notCharging } : BatteryInfo) =
          { component := .left, level := 0x85 &&& 0x7F,
            status := if 0x85 &&& 0x80 != 0 then .charging else .notCharging }) ∨
      (0xff ≠ 0xff ∧
        ({ component := .right, level := 0, status := .notCharging } : BatteryInfo) =
          { component := .right, level := 0xff &&& 0x7F,
            status := if 0xff &&& 0x80 != 0 then .charging else .notCharging }) ∨
      (0x64 ≠ 0xff ∧
        ({ component := .right, level := 0, status := .notCharging } : BatteryInfo) =
          { component := .batCase, level := 0x64 &&& 0x7F,
            status := if 0x64 &&& 0x80 != 0 then .charging else .notCharging }) :=
  c5_battery_bytes 0x20 [0x00, 0x85, 0xff, 0x64] 0x85 0xff 0x64
    { component := .right, level := 0, status := .notCharging } rfl rfl rfl

/-- C6: the single-flight drop works and a successful connect removes the
address, but a connect that completes with a failure status, or whose
spawn errors, leaves the address in `connecting_macs` — the source removes
it only in the success branch — so later advertisements cannot retry. -/
theorem c6_auto_connect_removal :
    autoConnectStep [] "11:22:33:44:55:66" .success = ([], true) ∧
    autoConnectStep [] "11:22:33:44:55:66" .failedStatus =
      (["11:22:33:44:55:66"], true) ∧
    autoConnectStep [] "11:22:33:44:55:66" .execError =
      (["11:22:33:44:55:66"], true) ∧
    autoConnectStep ["11:22:33:44:55:66"] "11:22:33:44:55:66" .failedStatus =
      (["11:22:33:44:55:66"], false) := by
  decide

/-- C7: with `primary_left` bit 5, `this_in_case` bit 6 and
`xor_factor = primary_left XOR this_in_case`, a true xor factor reads
left from bit 0x02 and right from bit 0x08, and a false xor factor swaps
the two assignments. -/
theorem c7_in_ear_bits (status : Nat) :
    xorFactor status = xor (primaryLeft status) (thisInCase status) ∧
    (xorFactor status = true →
      advertInEar status = (status &&& 0x02 != 0, status &&& 0x08 != 0)) ∧
    (xorFactor status = false →
      advertInEar status = (status &&& 0x08 != 0, status &&& 0x02 != 0)) := by
  refine ⟨rfl, fun h => ?_, fun h => ?_⟩ <;> simp [advertInEar, h]

/-- Witness for C7 at status byte 0x22 (bit 5 set, bit 6 clear). -/
theorem c7_in_ear_bits_witness :
    advertInEar 0x22 = (0x22 &&& 0x02 != 0, 0x22 &&& 0x08 != 0) :=
  (c7_in_ear_bits 0x22).2.1 (by decide)

/-- C8: the ATT receive loop decodes well-formed packets totally, but a
packet whose first byte is the notification opcode 0x1B and whose length
is below 3 hits an out-of-bounds index (`data[1]` / `data[2]`), which
panics and aborts the receive task — modelled as `none`. -/
theorem c8_recv_short_notification :
    handlePacket [0x1B] = none ∧
    handlePacket [0x1B, 0x18] = none ∧
    handlePacket [] = some .ignored ∧
    handlePacket [0x13] = some .emptyResponse ∧
    handlePacket [0x1B, 0x18, 0x00, 0x05] =
      some (.notification 0x18 [0x05]) ∧
    handlePacket [0x0B, 0x01, 0x02] = some (.response [0x01, 0x02]) := by
  decide

/-- C10: when `ear_detection_enabled` is false, `handle_ear_detection`
returns before any side effect for every pair of status vectors: no
action is performed and every coordinator field — including
`old_in_ear_data`, `user_played_the_media`, `i_paused_the_media` and
`paused_by_app_services` — is unchanged. -/
theorem c10_ear_detection_disabled_noop (w : MCWorld)
    (oldStatuses newStatuses : List EarDetectionStatus)
    (h : w.mc.earDetectionEnabled = false) :
    handleEarDetection w oldStatuses newStatuses = (w, []) := by
  simp [handleEarDetection, h]

/-- Witness for C10: disabled coordinator, buds being removed. -/
theorem c10_ear_detection_disabled_noop_witness :
    handleEarDetection
      { mc := { isPlaying := true, pausedByAppServices := ["org.mpris.MediaPlayer2.spotify"],
                oldInEarData := [true, true], userPlayedTheMedia := true,
                iPausedTheMedia := false, earDetectionEnabled := false,
                disconnectWhenNotWearing := true },
        playing := ["org.mpris.MediaPlayer2.vlc"] }
      [.inEar, .inEar] [.outOfEar, .outOfEar] =
    ({ mc := { isPlaying := true, pausedByAppServices := ["org.mpris.MediaPlayer2.spotify"],
               oldInEarData := [true, true], userPlayedTheMedia := true,
               iPausedTheMedia := false, earDetectionEnabled := false,
               disconnectWhenNotWearing := true },
       playing := ["org.mpris.MediaPlayer2.vlc"] }, []) :=
  c10_ear_detection_disabled_noop _ [.inEar, .inEar] [.outOfEar, .outOfEar] rfl

/-! ### Snapshot counting helpers -/

/-- Filtering never increases a `countP`. -/
theorem countP_filter_le {α : Type} (p q : α → Bool) (l : List α) :
    (l.filter q).countP p ≤ l.countP p := by
  rw [List.countP_filter]
  exact List.countP_mono_left fun x _ h => ((Bool.and_eq_true _ _).mp h).1

/-- Filtering out exactly the `p`-entries leaves a `p`-count of zero. -/
theorem countP_filter_not {α : Type} (p : α → Bool) (l : List α) :
    (l.filter fun a => !p a).countP p = 0 := by
  rw [List.countP_eq_zero]
  intro a ha hpa
  have h2 := (List.mem_filter.mp ha).2
  simp [hpa] at h2

/-- Appending one element to a list with no `p`-entries keeps the count at
most one. -/
theorem countP_append_le_one_of_zero {α : Type} (p : α → Bool) (l : List α)
    (ev : α) (h : l.countP p = 0) : (l ++ [ev]).countP p ≤ 1 := by
  rw [List.countP_append, h, List.countP_singleton]
  split <;> simp

/-- Appending a non-`p` element preserves a count bound of one. -/
theorem countP_append_le_one_of_not {α : Type} (p : α → Bool) (l : List α)
    (ev : α) (hev : p ev = false) (h : l.countP p ≤ 1) :
    (l ++ [ev]).countP p ≤ 1 := by
  rw [List.countP_append, List.countP_singleton, hev]
  simpa using h

/-- The snapshot invariant: at most one battery event, one device-info
event, and one control-command event per identifier, per device. -/
def SnapInv (snap : List AppEvent) : Prop :=
  ∀ mac : String, ∀ ident : Nat,
    snap.countP (isBatteryOf mac) ≤ 1 ∧
    snap.countP (isDeviceInfoOf mac) ≤ 1 ∧
    snap.countP (isControlCommandOf mac ident) ≤ 1

/-- One `update_snapshot` step preserves the snapshot invariant. -/
theorem snapInv_update (snap : List AppEvent) (ev : AppEvent)
    (h : SnapInv snap) : SnapInv (updateSnapshot snap ev) := by
  intro mac ident
  obtain ⟨hb, hd, hc⟩ := h mac ident
  cases ev with
  | deviceConnected m n b pid =>
      exact ⟨countP_append_le_one_of_not _ _ _ rfl
               (Nat.le_trans (countP_filter_le _ _ _) hb),
             countP_append_le_one_of_not _ _ _ rfl
               (Nat.le_trans (countP_filter_le _ _ _) hd),
             countP_append_le_one_of_not _ _ _ rfl
               (Nat.le_trans (countP_filter_le _ _ _) hc)⟩
  | deviceDisconnected m =>
      exact ⟨Nat.le_trans (countP_filter_le _ _ _) hb,
             Nat.le_trans (countP_filter_le _ _ _) hd,
             Nat.le_trans (countP_filter_le _ _ _) hc⟩
  | audioUnavailable =>
      simp only [updateSnapshot]
      split
      · exact ⟨countP_append_le_one_of_not _ _ _ rfl hb,
               countP_append_le_one_of_not _ _ _ rfl hd,
               countP_append_le_one_of_not _ _ _ rfl hc⟩
      · exact ⟨hb, hd, hc⟩
  | aacpEvent m ae =>
      cases ae with
      | batteryInfo infos =>
          simp only [updateSnapshot]
          refine ⟨?_, ?_, ?_⟩
          · by_cases hm : m = mac
            · subst hm
              exact countP_append_le_one_of_zero _ _ _ (countP_filter_not _ _)
            · refine countP_append_le_one_of_not _ _ _ ?_
                (Nat.le_trans (countP_filter_le _ _ _) hb)
              simp [isBatteryOf, hm]
          · exact countP_append_le_one_of_not _ _ _ rfl
              (Nat.le_trans (countP_filter_le _ _ _) hd)
          · exact countP_append_le_one_of_not _ _ _ rfl
              (Nat.le_trans (countP_filter_le _ _ _) hc)
      | deviceInfo payload =>
          simp only [updateSnapshot]
          refine ⟨?_, ?_, ?_⟩
          · exact countP_append_le_one_of_not _ _ _ rfl
              (Nat.le_trans (countP_filter_le _ _ _) hb)
          · by_cases hm : m = mac
            · subst hm
              exact countP_append_le_one_of_zero _ _ _ (countP_filter_not _ _)
            · refine countP_append_le_one_of_not _ _ _ ?_
                (Nat.le_trans (countP_filter_le _ _ _) hd)
              simp [isDeviceInfoOf, hm]
          · exact countP_append_le_one_of_not _ _ _ rfl
              (Nat.le_trans (countP_filter_le _ _ _) hc)
      | controlCommand cmd =>
          simp only [updateSnapshot]
          refine ⟨?_, ?_, ?_⟩
          · exact countP_append_le_one_of_not _ _ _ rfl
              (Nat.le_trans (countP_filter_le _ _ _) hb)
          · exact countP_append_le_one_of_not _ _ _ rfl
              (Nat.le_trans (countP_filter_le _ _ _) hd)
          · by_cases hm : m = mac ∧ cmd.identifier = ident
            · obtain ⟨hm1, hm2⟩ := hm
              subst hm1
              subst hm2
              exact countP_append_le_one_of_zero _ _ _ (countP_filter_not _ _)
            · refine countP_append_le_one_of_not _ _ _ ?_
                (Nat.le_trans (countP_filter_le _ _ _) hc)
              show (m == mac && cmd.identifier == ident) = false
              rcases not_and_or.mp hm with hne | hne <;> simp [hne]
      | other tag =>
          simp only [updateSnapshot]
          exact ⟨countP_append_le_one_of_not _ _ _ rfl hb,
                 countP_append_le_one_of_not _ _ _ rfl hd,
                 countP_append_le_one_of_not _ _ _ rfl hc⟩

/-- Folding any event sequence preserves the snapshot invariant. -/
theorem snapInv_foldl (events : List AppEvent) :
    ∀ snap : List AppEvent, SnapInv snap →
      SnapInv (events.foldl updateSnapshot snap) := by
  induction events with
  | nil => exact fun snap h => h
  | cons ev es ih => exact fun snap h => ih _ (snapInv_update snap ev h)

/-- C9: folding any event sequence through `update_snapshot` leaves at most
one `BatteryInfo`, one `DeviceInfo` and one `ControlCommand` entry per
identifier for each device, and a `DeviceDisconnected(mac)` step purges
every `DeviceConnected`, `AACPEvent` and `DeviceDisconnected` entry of that
device from any snapshot. -/
theorem c9_snapshot_latest_wins :
    (∀ events : List AppEvent, ∀ mac : String, ∀ ident : Nat,
      (events.foldl updateSnapshot []).countP (isBatteryOf mac) ≤ 1 ∧
      (events.foldl updateSnapshot []).countP (isDeviceInfoOf mac) ≤ 1 ∧
      (events.foldl updateSnapshot []).countP (isControlCommandOf mac ident) ≤ 1) ∧
    (∀ snapshot : List AppEvent, ∀ mac : String,
      ∀ ev ∈ updateSnapshot snapshot (.deviceDisconnected mac),
        mentionsMac mac ev = false) := by
  constructor
  · intro events mac ident
    exact snapInv_foldl events [] (fun _ _ => ⟨by simp, by simp, by simp⟩) mac ident
  · intro snapshot mac ev hev
    simp only [updateSnapshot] at hev
    have h2 := (List.mem_filter.mp hev).2
    cases ev <;> simp_all [mentionsMac]

/-- Witness for C9: two battery events for one device collapse to one
entry, and an unrelated `AudioUnavailable` entry survives a disconnect. -/
theorem c9_snapshot_latest_wins_witness :
    ([AppEvent.aacpEvent "M" (.batteryInfo []),
      AppEvent.aacpEvent "M" (.batteryInfo [])].foldl
        updateSnapshot []).countP (isBatteryOf "M") ≤ 1 ∧
    mentionsMac "M" AppEvent.audioUnavailable = false :=
  ⟨(c9_snapshot_latest_wins.1
      [AppEvent.aacpEvent "M" (.batteryInfo []),
       AppEvent.aacpEvent "M" (.batteryInfo [])] "M" 0).1,
   c9_snapshot_latest_wins.2 [AppEvent.audioUnavailable] "M"
     AppEvent.audioUnavailable (by decide)⟩

end AirPodsTui
